import Mathlib

/-!
# Verification of the session-coordinator / sandbox-lifecycle controller

Shallow embedding of the decision functions and effectful routines of the
`background-agents` control plane, translated from
`packages/control-plane/src/sandbox/lifecycle/decisions.ts`,
`packages/control-plane/src/sandbox/lifecycle/manager.ts` and the
`RepoSecretsStore` of the web package.

Conventions used throughout:
* JavaScript numbers holding timestamps and durations are embedded as `Int`
  (all arithmetic in the translated code is exact integer arithmetic).
* A TypeScript `x: T | null` field is embedded as `Option T`.
* JavaScript truthiness tests on `string | null` / `number | null` values
  (`if (x)`, `x && ...`, `!x`) are embedded by `strTruthy` / `numTruthy`
  below: `null`, the empty string and the number `0` are falsy.
-/

/-- Truthiness of a JavaScript `string | null` value: `null` and `""` are falsy. -/
def strTruthy : Option String → Bool
  | some s => decide (s ≠ "")
  | none => false

/-- Truthiness of a JavaScript `number | null` value: `null` and `0` are falsy. -/
def numTruthy : Option Int → Bool
  | some n => decide (n ≠ 0)
  | none => false

/-- Sandbox status enumeration.  The `SandboxStatus` union type is declared in
`packages/control-plane/src/types.ts`, which is not part of the provided
sources; the set of statuses is taken from the spec's data model:
{pending, spawning, connecting, warming, syncing, ready, running, stale,
snapshotting, stopped, failed}. -/
inductive SandboxStatus
  | pending
  | spawning
  | connecting
  | warming
  | syncing
  | ready
  | running
  | stale
  | snapshotting
  | stopped
  | failed
deriving DecidableEq, Repr

/-- The wire string of a status (TypeScript represents statuses as string
literals; used in interpolated skip reasons). -/
def SandboxStatus.str : SandboxStatus → String
  | .pending => "pending"
  | .spawning => "spawning"
  | .connecting => "connecting"
  | .warming => "warming"
  | .syncing => "syncing"
  | .ready => "ready"
  | .running => "running"
  | .stale => "stale"
  | .snapshotting => "snapshotting"
  | .stopped => "stopped"
  | .failed => "failed"

/-- JavaScript `Math.round(t / 1000)` for an integer number of milliseconds `t`:
JavaScript `Math.round x = ⌊x + 1/2⌋`, so
`Math.round (t/1000) = ⌊(2*t + 1000) / 2000⌋`. -/
def jsRoundDiv1000 (t : Int) : Int := Int.fdiv (2 * t + 1000) 2000

section CircuitBreaker

/-! ## Circuit breaker (`decisions.ts`, `evaluateCircuitBreaker`) -/

/-- Circuit breaker state from the database (`decisions.ts`). -/
structure CircuitBreakerState where
  failureCount : Int
  lastFailureTime : Int
deriving DecidableEq, Repr

/-- Circuit breaker configuration (`decisions.ts`). -/
structure CircuitBreakerConfig where
  threshold : Int
  windowMs : Int
deriving DecidableEq, Repr

/-- The default `DEFAULT_CIRCUIT_BREAKER_CONFIG`: threshold 3, window 5 minutes. -/
def DEFAULT_CIRCUIT_BREAKER_CONFIG : CircuitBreakerConfig :=
  { threshold := 3, windowMs := 5 * 60 * 1000 }

/-- Circuit breaker decision result (`decisions.ts`).  `waitTimeMs` is only
set when blocked. -/
structure CircuitBreakerDecision where
  shouldProceed : Bool
  shouldReset : Bool
  waitTimeMs : Option Int := none
deriving DecidableEq, Repr

/-- Translation of `evaluateCircuitBreaker` (`decisions.ts` lines 79-108). -/
def evaluateCircuitBreaker (state : CircuitBreakerState) (config : CircuitBreakerConfig)
    (now : Int) : CircuitBreakerDecision :=
  let timeSinceLastFailure := now - state.lastFailureTime
  -- Check if circuit breaker window has passed - reset failures
  if state.failureCount > 0 ∧ timeSinceLastFailure ≥ config.windowMs then
    { shouldProceed := true, shouldReset := true }
  -- Check if circuit breaker is open (too many failures within window)
  else if state.failureCount ≥ config.threshold ∧ timeSinceLastFailure < config.windowMs then
    { shouldProceed := false, shouldReset := false,
      waitTimeMs := some (config.windowMs - timeSinceLastFailure) }
  -- Circuit is closed, spawning allowed
  else
    { shouldProceed := true, shouldReset := false }

end CircuitBreaker

section SpawnDecision

/-! ## Spawn decision (`decisions.ts`, `evaluateSpawnDecision`) -/

/-- Sandbox state for the spawn decision (`decisions.ts`). -/
structure SandboxState where
  status : SandboxStatus
  createdAt : Int
  snapshotImageId : Option String
  hasActiveWebSocket : Bool
deriving DecidableEq, Repr

/-- Spawn decision configuration (`decisions.ts`). -/
structure SpawnConfig where
  cooldownMs : Int
  readyWaitMs : Int
deriving DecidableEq, Repr

/-- The default `DEFAULT_SPAWN_CONFIG`: 30 s cooldown, 60 s ready wait. -/
def DEFAULT_SPAWN_CONFIG : SpawnConfig := { cooldownMs := 30000, readyWaitMs := 60000 }

/-- Possible spawn actions (`decisions.ts`). -/
inductive SpawnAction
  | spawn
  | restore (snapshotImageId : String)
  | skip (reason : String)
  | wait (reason : String)
deriving DecidableEq, Repr

/-- Translation of `evaluateSpawnDecision` (`decisions.ts` lines 184-240).
The nested `if` on the `ready` status in the source falls through to the
cooldown check when neither sub-condition holds; here the chain is flattened,
which preserves the order of evaluation.  The guard on the first branch is the
JavaScript truthiness test `state.snapshotImageId && ...`, so `null` and the
empty string both fail it; `getD ""` is only reached when the guard ensures
the id is present. -/
def evaluateSpawnDecision (state : SandboxState) (config : SpawnConfig) (now : Int)
    (isSpawningInMemory : Bool) : SpawnAction :=
  let timeSinceLastSpawn := now - state.createdAt
  -- Check if we have a snapshot to restore from
  if strTruthy state.snapshotImageId ∧
      (state.status = .stopped ∨ state.status = .stale ∨ state.status = .failed) then
    .restore (state.snapshotImageId.getD "")
  -- Don't spawn if already spawning or connecting (persisted status)
  else if state.status = .spawning ∨ state.status = .connecting then
    .skip ("already " ++ state.status.str)
  -- Don't spawn if status is "ready" and we have an active WebSocket
  else if state.status = .ready ∧ state.hasActiveWebSocket then
    .skip "sandbox ready with active WebSocket"
  -- If no WebSocket but was recently spawned, wait for reconnect
  else if state.status = .ready ∧ timeSinceLastSpawn < config.readyWaitMs then
    .wait ("status ready but no WebSocket, last spawn was " ++
      toString (jsRoundDiv1000 timeSinceLastSpawn) ++ "s ago")
  -- Cooldown: don't spawn if last spawn was within cooldown period
  -- Exception: failed or stopped status bypasses cooldown
  else if timeSinceLastSpawn < config.cooldownMs ∧
      state.status ≠ .failed ∧ state.status ≠ .stopped then
    .wait ("last spawn was " ++ toString (jsRoundDiv1000 timeSinceLastSpawn) ++ "s ago, waiting")
  -- Check in-memory flag for same-request protection
  else if isSpawningInMemory then
    .skip "spawn already in progress (in-memory flag)"
  -- All checks passed - spawn a new sandbox
  else
    .spawn

end SpawnDecision

section Inactivity

/-! ## Inactivity timeout (`decisions.ts`, `evaluateInactivityTimeout`) -/

/-- State for inactivity timeout evaluation (`decisions.ts`). -/
structure InactivityState where
  lastActivity : Option Int
  status : SandboxStatus
  connectedClientCount : Nat
deriving DecidableEq, Repr

/-- Inactivity timeout configuration (`decisions.ts`). -/
structure InactivityConfig where
  timeoutMs : Int
  extensionMs : Int
  minCheckIntervalMs : Int
deriving DecidableEq, Repr

/-- The default `DEFAULT_INACTIVITY_CONFIG`: 10 min timeout, 5 min extension, 30 s
minimum check interval. -/
def DEFAULT_INACTIVITY_CONFIG : InactivityConfig :=
  { timeoutMs := 10 * 60 * 1000, extensionMs := 5 * 60 * 1000, minCheckIntervalMs := 30000 }

/-- Possible inactivity actions (`decisions.ts`).  A `schedule n` decision
means the caller sets the alarm at `now + n`. -/
inductive InactivityAction
  | timeout (shouldSnapshot : Bool)
  | extend (extensionMs : Int) (shouldWarn : Bool)
  | schedule (nextCheckMs : Int)
deriving DecidableEq, Repr

/-- Translation of `evaluateInactivityTimeout` (`decisions.ts` lines 311-352).
The source tests `!state.lastActivity`, a JavaScript truthiness check, so a
recorded activity timestamp of exactly `0` is treated like `null`. -/
def evaluateInactivityTimeout (state : InactivityState) (config : InactivityConfig)
    (now : Int) : InactivityAction :=
  -- Skip for terminal states - they don't need inactivity monitoring
  if state.status = .stopped ∨ state.status = .failed ∨ state.status = .stale then
    .schedule config.minCheckIntervalMs
  -- No activity recorded yet - schedule a check
  else if ¬ numTruthy state.lastActivity then
    .schedule config.minCheckIntervalMs
  -- Only check inactivity for ready or running sandboxes
  else if state.status ≠ .ready ∧ state.status ≠ .running then
    .schedule config.minCheckIntervalMs
  else
    let inactiveTime := now - state.lastActivity.getD 0
    -- Check if inactivity threshold exceeded
    if inactiveTime ≥ config.timeoutMs then
      -- If clients are still connected, they may be actively reviewing
      if state.connectedClientCount > 0 then
        .extend config.extensionMs true
      -- No clients connected - timeout and snapshot
      else
        .timeout true
    -- Not yet timed out - schedule next check at remaining time (minimum interval)
    else
      .schedule (max (config.timeoutMs - inactiveTime) config.minCheckIntervalMs)

end Inactivity

section MessageQueue

/-! ## Prompt queue (`manager.ts`, `SessionDO.processMessageQueue`) and the
completion path of `SessionDO.processSandboxEvent`. -/

/-- Message (prompt) status. -/
inductive MessageStatus
  | pending
  | processing
  | completed
  | failed
deriving DecidableEq, Repr

/-- The slice of a `messages` row that the queue driver and the completion
path read and write. -/
structure MessageRow where
  id : String
  status : MessageStatus
  createdAt : Int
  startedAt : Option Int := none
  completedAt : Option Int := none
deriving DecidableEq, Repr

/-- The query `SELECT id FROM messages WHERE status = 'processing' LIMIT 1`: the first
row in table order whose status is `processing`. -/
def findProcessing (msgs : List MessageRow) : Option MessageRow :=
  msgs.find? fun m => m.status = .processing

/-- The query `SELECT * FROM messages WHERE status = 'pending' ORDER BY created_at ASC
LIMIT 1`.  The query orders by `created_at` only; among rows that tie on
`created_at`, SQLite yields them in table (insertion/rowid) order, so the
first-inserted row with the minimal `created_at` is selected.  The query does
NOT order by id. -/
def selectOldestPending (msgs : List MessageRow) : Option MessageRow :=
  (msgs.filter fun m => m.status = .pending).foldl
    (fun acc m =>
      match acc with
      | none => some m
      | some b => if m.createdAt < b.createdAt then some m else acc)
    none

/-- What one run of the queue driver did (its observable side effect). -/
inductive QueueOutcome
  | alreadyProcessing
  | noPending
  /-- No sandbox socket: broadcast `sandbox_spawning` and call `spawnSandbox`;
  the selected message stays `pending`. -/
  | spawnRequested (messageId : String)
  /-- Sandbox socket open: the message was marked `processing` and the prompt
  command dispatched to the sandbox. -/
  | dispatched (messageId : String)
deriving DecidableEq, Repr

/-- The state the queue driver touches: the `messages` table and whether a
sandbox WebSocket is connected (`getSandboxWebSocket() ≠ null`). -/
structure QueueState where
  messages : List MessageRow
  sandboxConnected : Bool
deriving DecidableEq, Repr

/-- Translation of `SessionDO.processMessageQueue` (`manager.ts` lines
2058-2140).  The construction of the prompt command payload (model
resolution, author lookup) has no effect on the queue state and is abstracted
into the `dispatched` outcome. -/
def processMessageQueue (st : QueueState) (now : Int) : QueueState × QueueOutcome :=
  -- Check if already processing
  if (findProcessing st.messages).isSome then
    (st, .alreadyProcessing)
  else
    -- Get next pending message
    match selectOldestPending st.messages with
    | none => (st, .noPending)
    | some message =>
      -- Check if sandbox is connected (with hibernation recovery)
      if ¬ st.sandboxConnected then
        -- No sandbox connected - spawn one; don't mark as processing yet
        (st, .spawnRequested message.id)
      else
        -- Mark as processing and send the prompt command to the sandbox
        ({ st with
            messages := st.messages.map fun m =>
              if m.id = message.id then { m with status := .processing, startedAt := some now }
              else m },
          .dispatched message.id)

/-- The fields of an `execution_complete` sandbox event that the completion
path reads.  `messageId = none` models an event that omits the field (or
carries a nullish value): the source computes
`"messageId" in event ? event.messageId : null` and then applies `??`. -/
structure ExecutionCompleteEvent where
  success : Bool
  messageId : Option String
deriving DecidableEq, Repr

/-- Message-id resolution of `SessionDO.processSandboxEvent` (`manager.ts`
lines 1835-1858): `messageId = eventMessageId ?? processingRow?.id ?? null`,
then `completionMessageId = messageId ?? event.messageId`. -/
def resolveCompletionMessageId (msgs : List MessageRow) (ev : ExecutionCompleteEvent) :
    Option String :=
  let eventMessageId := ev.messageId
  let messageId := (eventMessageId.orElse fun _ => (findProcessing msgs).map fun m => m.id)
  messageId.orElse fun _ => ev.messageId

/-- The `execution_complete` branch of `SessionDO.processSandboxEvent`
(`manager.ts` lines 1856-1873): resolve the message id, then
`UPDATE messages SET status = ?, completed_at = ? WHERE id = ?` with
status `completed` when `event.success` and `failed` otherwise. -/
def processExecutionComplete (msgs : List MessageRow) (ev : ExecutionCompleteEvent)
    (now : Int) : List MessageRow :=
  let status : MessageStatus := if ev.success then .completed else .failed
  match resolveCompletionMessageId msgs ev with
  | some mid =>
    msgs.map fun m =>
      if m.id = mid then { m with status := status, completedAt := some now } else m
  | none => msgs

end MessageQueue

section Broadcasts

/-! ## Broadcast messages (the subset the modelled routines emit). -/

/-- Server→client broadcasts emitted by the modelled lifecycle routines. -/
inductive Broadcast
  | sandboxStatus (status : SandboxStatus)
  | sandboxError (error : String)
  | snapshotSaved (imageId : String) (reason : String)
  | sandboxRestored (message : String)
  | sandboxSpawning
  | sandboxWarning (message : String)
deriving DecidableEq, Repr

end Broadcasts

section SpawnFailure

/-! ## Fresh-spawn failure handling.

Two implementations exist in the source:
* `SandboxLifecycleManager.doSpawn` (`manager.ts` lines 296-321) classifies
  the error by the provider's `errorType`;
* `SessionDO.spawnSandbox` (`manager.ts` lines 2335-2356) does not. -/

/-- Provider error classification.  Modelled from the spec: the
`SandboxProviderError` class lives in
`packages/control-plane/src/sandbox/provider.ts`, which is not among the
provided sources; per the spec's provider port, "Errors carry an
`errorType ∈ {permanent, transient}`". -/
inductive SandboxErrorType
  | permanent
  | transient
deriving DecidableEq, Repr

/-- The error caught by a spawn attempt: either a `SandboxProviderError`
carrying an `errorType`, or any other thrown error (`error instanceof
SandboxProviderError` is false). -/
inductive SpawnError
  | providerError (errorType : SandboxErrorType) (message : String)
  | otherError (message : String)
deriving DecidableEq, Repr

/-- The expression `error instanceof Error ? error.message : "Failed to spawn sandbox"`
(both caught shapes here are `Error`s with a message). -/
def SpawnError.message : SpawnError → String
  | .providerError _ msg => msg
  | .otherError msg => msg

/-- The circuit-breaker columns of the `sandbox` row plus its status. -/
structure SpawnFailureState where
  spawnFailureCount : Int
  lastSpawnFailure : Int
  status : SandboxStatus
deriving DecidableEq, Repr

/-- Translation of the `catch` block of `SandboxLifecycleManager.doSpawn`
(`manager.ts` lines 296-321): increment the circuit breaker only for
permanent provider errors and for non-provider (unknown) errors; always set
status to `failed` and broadcast the error. -/
def doSpawnCatch (err : SpawnError) (st : SpawnFailureState) (now : Int) :
    SpawnFailureState × List Broadcast :=
  let st1 :=
    match err with
    | .providerError .permanent _ =>
      { st with spawnFailureCount := st.spawnFailureCount + 1, lastSpawnFailure := now }
    | .providerError .transient _ => st
    | .otherError _ =>
      -- Unknown error type - treat as permanent
      { st with spawnFailureCount := st.spawnFailureCount + 1, lastSpawnFailure := now }
  ({ st1 with status := .failed }, [.sandboxError err.message])

/-- Translation of the `catch` block of `SessionDO.spawnSandbox`
(`manager.ts` lines 2335-2356): increments the circuit breaker
unconditionally (`COALESCE(spawn_failure_count, 0) + 1`), with no
transient/permanent classification, then sets status to `failed` and
broadcasts the error. -/
def sessionDOSpawnCatch (err : SpawnError) (st : SpawnFailureState) (now : Int) :
    SpawnFailureState × List Broadcast :=
  let st1 := { st with spawnFailureCount := st.spawnFailureCount + 1, lastSpawnFailure := now }
  ({ st1 with status := .failed }, [.sandboxError err.message])

end SpawnFailure

section Snapshot

/-! ## Snapshotting (`manager.ts`, `SandboxLifecycleManager.triggerSnapshot`,
lines 403-462). -/

/-- Result returned by `provider.takeSnapshot`. -/
structure SnapshotResult where
  success : Bool
  imageId : Option String
  error : Option String := none
deriving DecidableEq, Repr

/-- The provider environment of one snapshot call: whether the provider
supports snapshots, and the outcome of `takeSnapshot` — a returned result
(`Except.ok`) or a thrown error (`Except.error`), which the source catches
and logs. -/
structure SnapshotCtx where
  providerSupportsSnapshot : Bool
  callResult : Except String SnapshotResult
deriving Repr

/-- The slice of persistent state `triggerSnapshot` touches. -/
structure SnapState where
  status : SandboxStatus
  modalObjectId : Option String
  sessionExists : Bool
  snapshotImageId : Option String
deriving DecidableEq, Repr

/-- Translation of `SandboxLifecycleManager.triggerSnapshot` (`manager.ts`
lines 403-462).  Returns the updated state and the ordered list of
broadcasts.  `!sandbox?.modal_object_id` is a JavaScript truthiness test. -/
def triggerSnapshot (ctx : SnapshotCtx) (st : SnapState) (reason : String) :
    SnapState × List Broadcast :=
  if ¬ ctx.providerSupportsSnapshot then (st, [])
  else if ¬ strTruthy st.modalObjectId ∨ ¬ st.sessionExists then (st, [])
  -- Don't snapshot if already snapshotting
  else if st.status = .snapshotting then (st, [])
  else
    -- Track previous status for non-terminal states
    let isTerminalState := st.status = .stopped ∨ st.status = .stale ∨ st.status = .failed
    let previousStatus := st.status
    let stepIn : SnapState × List Broadcast :=
      if ¬ isTerminalState then
        ({ st with status := .snapshotting }, [.sandboxStatus .snapshotting])
      else (st, [])
    let st1 := stepIn.1
    let bc1 := stepIn.2
    let stepCall : SnapState × List Broadcast :=
      match ctx.callResult with
      | .ok result =>
        if result.success ∧ strTruthy result.imageId then
          ({ st1 with snapshotImageId := result.imageId },
           [.snapshotSaved (result.imageId.getD "") reason])
        else (st1, [])
      | .error _ => (st1, [])
    let st2 := stepCall.1
    let bc2 := stepCall.2
    -- Restore previous status if we weren't in a terminal state
    if ¬ isTerminalState ∧ reason ≠ "heartbeat_timeout" then
      ({ st2 with status := previousStatus }, bc1 ++ bc2 ++ [.sandboxStatus previousStatus])
    else (st2, bc1 ++ bc2)

end Snapshot

section Upgrade

/-! ## Sandbox WebSocket upgrade (`manager.ts`,
`SessionDO.handleWebSocketUpgrade`, sandbox branch, lines 859-959). -/

/-- The slice of the `sandbox` row the upgrade handler reads. -/
structure SandboxAuthRow where
  authToken : Option String
  modalSandboxId : Option String
  status : SandboxStatus
deriving DecidableEq, Repr

/-- Outcome of a sandbox-type upgrade request. -/
inductive UpgradeOutcome
  /-- The upgrade was rejected with the given HTTP status code. -/
  | rejected (statusCode : Nat)
  /-- The upgrade was accepted: `closedPrevious` records whether an existing
  sandbox socket was closed (code 1000, "New sandbox connecting"), and the
  sandbox status was set to `newStatus` (always `ready`). -/
  | accepted (closedPrevious : Bool) (newStatus : SandboxStatus)
deriving DecidableEq, Repr

/-- JavaScript template-literal rendering of a possibly-undefined string:
an absent value renders as `"undefined"` (as in `` `Bearer ${expectedToken}` ``
when `sandbox?.auth_token` is undefined). -/
def optToJsString : Option String → String
  | some s => s
  | none => "undefined"

/-- Translation of the sandbox branch of `SessionDO.handleWebSocketUpgrade`
(`manager.ts` lines 859-959).

* `sandbox` — the stored `sandbox` row, if any;
* `authHeader` — the `Authorization` header (`none` when absent);
* `declaredId` — the `X-Sandbox-ID` header (`none` when absent);
* `hasExistingSandboxWs` — whether a previous sandbox socket is tracked.

The checks run in source order: terminal status (410) first, then the bearer
token (401), then the declared sandbox id (403, only when an expected id is
stored and truthy). -/
def handleSandboxUpgrade (sandbox : Option SandboxAuthRow) (authHeader : Option String)
    (declaredId : Option String) (hasExistingSandboxWs : Bool) : UpgradeOutcome :=
  let expectedToken := sandbox.bind fun s => s.authToken
  let expectedSandboxId := sandbox.bind fun s => s.modalSandboxId
  -- Reject connection if sandbox should be stopped (prevents reconnection
  -- after inactivity timeout)
  if (sandbox.map fun s => s.status) = some .stopped ∨
      (sandbox.map fun s => s.status) = some .stale then
    .rejected 410
  -- Validate auth token
  else if authHeader = none ∨ authHeader ≠ some ("Bearer " ++ optToJsString expectedToken) then
    .rejected 401
  -- Validate sandbox ID (if we expect a specific one)
  else if strTruthy expectedSandboxId ∧ declaredId ≠ some (expectedSandboxId.getD "") then
    .rejected 403
  else
    -- Close any existing sandbox WebSocket to prevent duplicates, then
    -- track the new socket and move status to ready
    .accepted hasExistingSandboxWs .ready

end Upgrade

section RepoSecrets

/-! ## Repository secrets store (`RepoSecretsStore` in the web package:
`setSecrets` and its validation helpers).

Envelope encryption (`encryptToken` / `decryptToken`) is a value-preserving
AEAD round-trip; the quota and atomicity claims concern the plaintext byte
sizes, so the stored `value` field here holds the plaintext that the stored
ciphertext decrypts to.  `new TextEncoder().encode(v).length` is the UTF-8
byte length of `v`, embedded as `utf8Len`. -/

/-- UTF-8 byte length of a string (`new TextEncoder().encode(value).length`). -/
def utf8Len (s : String) : Nat := (s.data.map Char.utf8Size).sum

/-- JavaScript `toUpperCase()`, modelled as per-character ASCII upper-casing
(it agrees with the JS function on every key that can pass the ASCII-only
key pattern). -/
def jsToUpperCase (s : String) : String := String.mk (s.data.map Char.toUpper)

/-- JavaScript `toLowerCase()`, modelled as per-character ASCII
lower-casing. -/
def jsToLowerCase (s : String) : String := String.mk (s.data.map Char.toLower)

def MAX_KEY_LENGTH : Nat := 256
def MAX_VALUE_SIZE : Nat := 16384
def MAX_TOTAL_VALUE_SIZE : Nat := 65536
def MAX_SECRETS_PER_REPO : Nat := 50

/-- The `RESERVED_KEYS` set. -/
def RESERVED_KEYS : List String :=
  ["PYTHONUNBUFFERED", "SANDBOX_ID", "CONTROL_PLANE_URL", "SANDBOX_AUTH_TOKEN",
   "REPO_OWNER", "REPO_NAME", "GITHUB_APP_TOKEN", "SESSION_CONFIG",
   "RESTORED_FROM_SNAPSHOT", "OPENCODE_CONFIG_CONTENT", "ANTHROPIC_API_KEY",
   "OPENAI_API_KEY", "GOOGLE_API_KEY", "PATH", "HOME", "USER", "SHELL",
   "TERM", "PWD", "LANG"]

/-- First character of `VALID_KEY_PATTERN` = `[A-Za-z_]` (ASCII only, as in
the regex). -/
def isKeyStartChar (c : Char) : Bool := c.isAlpha || c = '_'

/-- Continuation characters of `VALID_KEY_PATTERN` = `[A-Za-z0-9_]`. -/
def isKeyChar (c : Char) : Bool := c.isAlphanum || c = '_'

/-- The test `VALID_KEY_PATTERN.test(key)` for `/^[A-Za-z_][A-Za-z0-9_]*$/`. -/
def matchesKeyPattern (s : String) : Bool :=
  match s.data with
  | [] => false
  | c :: rest => isKeyStartChar c && rest.all isKeyChar

/-- Translation of `normalizeKey`: upper-case the key. -/
def normalizeKey (key : String) : String := jsToUpperCase key

/-- Translation of `validateKey` — called on the normalized key. -/
def validateKey (key : String) : Except String Unit :=
  if key.isEmpty ∨ key.length > MAX_KEY_LENGTH then
    .error "Key too long or empty"
  else if ¬ matchesKeyPattern key then
    .error "Key must match [A-Za-z_][A-Za-z0-9_]*"
  else if RESERVED_KEYS.contains (jsToUpperCase key) then
    .error ("Key \x27" ++ key ++ "\x27 is reserved")
  else
    .ok ()

/-- Translation of `validateValue` — only the byte-size check is representable (the
`typeof value !== "string"` guard cannot fire for a typed `String`). -/
def validateValue (value : String) : Except String Unit :=
  if utf8Len value > MAX_VALUE_SIZE then
    .error ("Value exceeds " ++ toString MAX_VALUE_SIZE ++ " bytes")
  else
    .ok ()

/-- JavaScript object assignment `normalized[key] = value`: an existing key
keeps its position and gets the new value, a new key is appended. -/
def recordSet (m : List (String × String)) (k v : String) : List (String × String) :=
  if m.any fun p => p.1 = k then
    m.map fun p => if p.1 = k then (k, v) else p
  else
    m ++ [(k, v)]

/-- The validation loop of `setSecrets`: normalize each key, validate key and
value, accumulate `totalValueBytes` (counted per raw entry) and build the
`normalized` record. -/
def validateAndNormalize (secrets : List (String × String)) :
    Except String (List (String × String) × Nat) :=
  secrets.foldlM
    (fun acc p => do
      let key := normalizeKey p.1
      validateKey key
      validateValue p.2
      pure (recordSet acc.1 key p.2, acc.2 + utf8Len p.2))
    ([], 0)

/-- One row of the process-wide `repo_secrets` table, with the plaintext the
stored ciphertext decrypts to. -/
structure SecretRow where
  repoId : Int
  repoOwner : String
  repoName : String
  key : String
  value : String
  createdAt : Int
  updatedAt : Int
deriving DecidableEq, Repr

/-- The `repo_secrets` table, in rowid order. -/
abbrev SecretsDB := List SecretRow

/-- The upsert `INSERT ... ON CONFLICT(repo_id, key) DO UPDATE SET repo_owner,
repo_name, encrypted_value, updated_at` — a conflicting row keeps its
position and its `created_at`; otherwise the row is appended. -/
def dbUpsert (db : SecretsDB) (row : SecretRow) : SecretsDB :=
  if db.any fun r => r.repoId = row.repoId ∧ r.key = row.key then
    db.map fun r =>
      if r.repoId = row.repoId ∧ r.key = row.key then
        { row with createdAt := r.createdAt }
      else r
  else
    db ++ [row]

/-- The query `SELECT key FROM repo_secrets WHERE repo_id = ?` (in table order). -/
def repoKeys (db : SecretsDB) (repoId : Int) : List String :=
  (db.filter fun r => r.repoId = repoId).map fun r => r.key

/-- Return value of `setSecrets`. -/
structure SetSecretsResult where
  created : Nat
  updated : Nat
  keys : List String
deriving DecidableEq, Repr

/-- Translation of `RepoSecretsStore.setSecrets`.  The result pairs the
`repo_secrets` table after the call with either the returned summary or the
thrown `RepoSecretsValidationError` message; every `throw` happens before any
mutating statement, so the error cases return the table unchanged exactly as
the source leaves the database untouched. -/
def setSecrets (db : SecretsDB) (repoId : Int) (repoOwner repoName : String)
    (secrets : List (String × String)) (now : Int) :
    SecretsDB × Except String SetSecretsResult :=
  let owner := jsToLowerCase repoOwner
  let name := jsToLowerCase repoName
  match validateAndNormalize secrets with
  | .error e => (db, .error e)
  | .ok (normalized, totalValueBytes) =>
    if totalValueBytes > MAX_TOTAL_VALUE_SIZE then
      (db, .error ("Total secret size exceeds " ++ toString MAX_TOTAL_VALUE_SIZE ++ " bytes"))
    else
      -- `new Set((existingKeys.results || []).map(r => r.key))`
      let existingKeySet := (repoKeys db repoId).dedup
      let incomingKeys := normalized.map fun p => p.1
      let netNew := (incomingKeys.filter fun k => !existingKeySet.contains k).length
      if existingKeySet.length + netNew > MAX_SECRETS_PER_REPO then
        (db, .error ("Repository would exceed " ++ toString MAX_SECRETS_PER_REPO ++
          " secrets limit"))
      else
        let created := (incomingKeys.filter fun k => !existingKeySet.contains k).length
        let updated := (incomingKeys.filter fun k => existingKeySet.contains k).length
        let db2 := normalized.foldl
          (fun d p =>
            dbUpsert d
              { repoId := repoId, repoOwner := owner, repoName := name,
                key := p.1, value := p.2, createdAt := now, updatedAt := now })
          db
        (db2, .ok { created := created, updated := updated, keys := incomingKeys })

/-- Sum of the UTF-8 byte lengths of all stored values for a repo. -/
def repoValueBytes (db : SecretsDB) (repoId : Int) : Nat :=
  ((db.filter fun r => r.repoId = repoId).map fun r => utf8Len r.value).sum

end RepoSecrets

section SpecSideDefinitions

/-! ## Claim-side definitions: spec-faithful decision functions and
invariants that the theorems compare the embeddings against. -/

/-- The shape of a spawn decision, forgetting skip/wait reasons (the spec's
rules do not fix reason texts). -/
inductive SpawnKind
  | spawn
  | restore (snapshotImageId : String)
  | skip
  | wait
deriving DecidableEq, Repr

/-- Forget the reason of a spawn action. -/
def SpawnAction.kind : SpawnAction → SpawnKind
  | .spawn => .spawn
  | .restore img => .restore img
  | .skip _ => .skip
  | .wait _ => .wait

/-- The claim's rules for the spawn decision, written from the spec's words
(§4.4.2, cooldown 30 s, ready-wait 60 s), amended only in rule 1: restore
fires when the snapshot image id is non-null AND non-empty (the source guards
it with JavaScript truthiness, under which the empty string is falsy). -/
def specSpawnDecision (state : SandboxState) (now : Int) (isSpawningInMemory : Bool) :
    SpawnKind :=
  -- Rule 1 (amended): non-null, non-empty snapshot id and terminal status
  if state.snapshotImageId ≠ none ∧ state.snapshotImageId ≠ some "" ∧
      (state.status = .stopped ∨ state.status = .stale ∨ state.status = .failed) then
    .restore (state.snapshotImageId.getD "")
  -- Rule 2
  else if state.status = .spawning ∨ state.status = .connecting then
    .skip
  -- Rule 3a
  else if state.status = .ready ∧ state.hasActiveWebSocket then
    .skip
  -- Rule 3b
  else if state.status = .ready ∧ ¬ state.hasActiveWebSocket ∧
      now - state.createdAt < 60000 then
    .wait
  -- Rule 4
  else if now - state.createdAt < 30000 ∧ state.status ≠ .failed ∧ state.status ≠ .stopped then
    .wait
  -- Rule 5
  else if isSpawningInMemory then
    .skip
  -- Rule 6
  else
    .spawn

/-- The claim's rules for the inactivity alarm decision, written from the
spec's words (§4.4.5, timeout 10 min, extension 5 min, minimum check 30 s),
amended only in the treatment of `last_activity = 0`: the source tests
`!state.lastActivity`, under which a zero timestamp behaves like `null` and
yields a 30 s re-check. -/
def specInactivityDecision (state : InactivityState) (now : Int) : InactivityAction :=
  -- Terminal status, no (or zero) recorded activity, or a status outside
  -- {ready, running}: schedule the next check 30 s out
  if state.status = .stopped ∨ state.status = .failed ∨ state.status = .stale then
    .schedule 30000
  else if state.lastActivity = none ∨ state.lastActivity = some 0 then
    .schedule 30000
  else if state.status ≠ .ready ∧ state.status ≠ .running then
    .schedule 30000
  -- Inactivity at or beyond the 10-minute timeout: extend with a warning
  -- while any client is connected, time out (stop + snapshot) only at zero
  else if now - state.lastActivity.getD 0 ≥ 600000 then
    if state.connectedClientCount ≥ 1 then .extend 300000 true
    else .timeout true
  -- Otherwise: schedule at the remaining time, at least 30 s out
  else
    .schedule (max (600000 - (now - state.lastActivity.getD 0)) 30000)

/-- The errors for which `SandboxLifecycleManager.doSpawn` increments the
spawn-failure counter: permanent provider errors and non-provider (unknown)
errors, per the claim's classification. -/
def incrementsCircuitBreaker : SpawnError → Bool
  | .providerError .permanent _ => true
  | .providerError .transient _ => false
  | .otherError _ => true

/-- The two secret quotas that are preserved across calls: at most 50
distinct keys per repo id, and every stored value at most 16384 UTF-8
bytes. -/
def SecretsQuotaInv (db : SecretsDB) : Prop :=
  (∀ rid : Int, ((repoKeys db rid).dedup).length ≤ MAX_SECRETS_PER_REPO) ∧
  ∀ r ∈ db, utf8Len r.value ≤ MAX_VALUE_SIZE

end SpecSideDefinitions

/-! # Theorems -/

section ClaimC2

/-- Any claim about the default configuration uses these literal values. -/
theorem default_circuit_breaker_values :
    DEFAULT_CIRCUIT_BREAKER_CONFIG = { threshold := 3, windowMs := 300000 } := by
  decide

/-- C2: with threshold 3 and a 5-minute window, the circuit-breaker decision
is: proceed and reset when `failure_count > 0` and
`now - last_failure_time ≥ window` (including exactly at the boundary);
block with `wait_ms = window - (now - last_failure_time)` when
`failure_count ≥ threshold` and `now - last_failure_time < window`; and
proceed without reset otherwise. -/
theorem circuit_breaker_decision_correct (state : CircuitBreakerState) (now : Int) :
    (state.failureCount > 0 ∧ now - state.lastFailureTime ≥ 300000 →
      evaluateCircuitBreaker state DEFAULT_CIRCUIT_BREAKER_CONFIG now =
        { shouldProceed := true, shouldReset := true }) ∧
    (state.failureCount ≥ 3 ∧ now - state.lastFailureTime < 300000 →
      evaluateCircuitBreaker state DEFAULT_CIRCUIT_BREAKER_CONFIG now =
        { shouldProceed := false, shouldReset := false,
          waitTimeMs := some (300000 - (now - state.lastFailureTime)) }) ∧
    (¬ (state.failureCount > 0 ∧ now - state.lastFailureTime ≥ 300000) →
     ¬ (state.failureCount ≥ 3 ∧ now - state.lastFailureTime < 300000) →
      evaluateCircuitBreaker state DEFAULT_CIRCUIT_BREAKER_CONFIG now =
        { shouldProceed := true, shouldReset := false }) := by
  refine ⟨fun h => ?_, fun h => ?_, fun h1 h2 => ?_⟩ <;>
    · unfold evaluateCircuitBreaker DEFAULT_CIRCUIT_BREAKER_CONFIG
      dsimp only
      split_ifs with ha hb <;> first | rfl | (exfalso; omega)

/-- Witness for C2, at the window boundary exactly: one failure five minutes
ago yields proceed-and-reset. -/
theorem circuit_breaker_decision_correct_witness :
    (1 : Int) > 0 ∧ (300000 : Int) - 0 ≥ 300000 ∧
    evaluateCircuitBreaker { failureCount := 1, lastFailureTime := 0 }
      DEFAULT_CIRCUIT_BREAKER_CONFIG 300000 =
      { shouldProceed := true, shouldReset := true } :=
  ⟨by norm_num, by norm_num,
    (circuit_breaker_decision_correct { failureCount := 1, lastFailureTime := 0 } 300000).1
      (by norm_num)⟩

end ClaimC2

section ClaimC1

/-- Counterexample to C1 as stated: with a non-null but EMPTY snapshot image
id and status `stopped`, rule 1 of the claim demands `restore`, but the
source's truthiness guard skips it and the evaluation falls through to a
fresh `spawn`. -/
theorem spawn_decision_empty_snapshot_counterexample :
    evaluateSpawnDecision
      { status := .stopped, createdAt := 0, snapshotImageId := some "",
        hasActiveWebSocket := false }
      DEFAULT_SPAWN_CONFIG 100000 false = .spawn ∧
    SpawnAction.spawn ≠ .restore "" := by
  constructor
  · rfl
  · intro h
    exact SpawnAction.noConfusion h

/-- C1 (amended): for every sandbox state, timestamp and in-memory flag,
`evaluateSpawnDecision` at the default configuration decides exactly by the
spec's ordered rules, with rule 1 requiring the snapshot id to be non-null
and non-empty:
1. snapshot id present (non-empty) and status ∈ {stopped, stale, failed} →
   restore that snapshot;
2. else status ∈ {spawning, connecting} → skip;
3. else if status = ready: with an active sandbox socket → skip; with no
   socket and `now - created_at < 60000` → wait;
4. else if `now - created_at < 30000` and status ∉ {failed, stopped} → wait;
5. else if the in-memory spawning flag is set → skip;
6. else → spawn. -/
theorem spawn_decision_matches_spec (state : SandboxState) (now : Int) (flag : Bool) :
    (evaluateSpawnDecision state DEFAULT_SPAWN_CONFIG now flag).kind =
      specSpawnDecision state now flag := by
  obtain ⟨status, createdAt, snap, ws⟩ := state
  unfold evaluateSpawnDecision specSpawnDecision DEFAULT_SPAWN_CONFIG
  rcases snap with _ | s
  · cases status <;> cases ws <;> cases flag <;>
      · simp only [strTruthy, SpawnAction.kind, decide_not, reduceCtorEq, ne_eq,
          not_false_eq_true, not_true_eq_false, false_and, true_and, and_true, and_false,
          or_self, or_false, false_or, or_true, true_or, if_true, if_false,
          Bool.false_eq_true, Bool.true_eq_false, if_pos, if_neg, not_and, and_self]
        try (split_ifs <;> simp_all [SpawnAction.kind])
  · by_cases hs : s = ""
    · subst hs
      cases status <;> cases ws <;> cases flag <;>
        · simp only [strTruthy, SpawnAction.kind, decide_not, reduceCtorEq, ne_eq,
            not_false_eq_true, not_true_eq_false, false_and, true_and, and_true, and_false,
            or_self, or_false, false_or, or_true, true_or, Bool.false_eq_true,
            decide_eq_true_eq, not_and, and_self, Option.some.injEq]
          try (split_ifs <;> simp_all [SpawnAction.kind])
    · cases status <;> cases ws <;> cases flag <;>
        · simp only [strTruthy, SpawnAction.kind, decide_not, reduceCtorEq, ne_eq,
            not_false_eq_true, not_true_eq_false, false_and, true_and, and_true, and_false,
            or_self, or_false, false_or, or_true, true_or, Bool.false_eq_true,
            decide_eq_true_eq, not_and, and_self, Option.some.injEq, hs]
          try (split_ifs <;> simp_all [SpawnAction.kind])

end ClaimC1

section ClaimC4

/-- Counterexample to C4 as stated: with status `ready`, one connected
client, and a NON-NULL `last_activity` of exactly `0` at `now = 600000` (so
`now - last_activity` is at the 10-minute threshold), the claim demands
`extend`, but the source's `!state.lastActivity` truthiness test treats the
zero timestamp like `null` and schedules a 30 s re-check instead. -/
theorem inactivity_zero_last_activity_counterexample :
    evaluateInactivityTimeout
      { lastActivity := some 0, status := .ready, connectedClientCount := 1 }
      DEFAULT_INACTIVITY_CONFIG 600000 = .schedule 30000 ∧
    InactivityAction.schedule 30000 ≠ .extend 300000 true := by
  constructor
  · rfl
  · intro h
    exact InactivityAction.noConfusion h

/-- C4 (amended): for every inactivity state and timestamp, the alarm
decision of `evaluateInactivityTimeout` at the default configuration follows
the claim's rules, with `last_activity = 0` treated like `null`:
* status ∈ {stopped, failed, stale}, or `last_activity` null or zero, or
  status ∉ {ready, running} → schedule the next check 30 s out;
* otherwise, if `now - last_activity ≥ 600000`: extend by 300000 ms with a
  warning broadcast when at least one client is connected, and timeout
  (stop + snapshot) only when no client is connected;
* otherwise → schedule at `max(600000 - inactive_time, 30000)`. -/
theorem inactivity_decision_matches_spec (state : InactivityState) (now : Int) :
    evaluateInactivityTimeout state DEFAULT_INACTIVITY_CONFIG now =
      specInactivityDecision state now := by
  obtain ⟨la, status, count⟩ := state
  unfold evaluateInactivityTimeout specInactivityDecision DEFAULT_INACTIVITY_CONFIG
  rcases la with _ | t
  · cases status <;> rfl
  · by_cases ht : t = 0
    · subst ht
      cases status <;> rfl
    · cases status <;>
        · simp only [numTruthy, decide_eq_true_eq, ne_eq, not_not, reduceCtorEq, ht,
            Option.some.injEq, or_self, or_false, false_or, not_false_eq_true, and_self,
            not_true_eq_false, and_false, false_and, true_and, and_true, if_false, if_true,
            Option.getD_some]
          try (split_ifs <;> simp_all)

end ClaimC4

section ClaimC5

/-- C5: an inbound `execution_complete` event resolves a message to
`completed` exactly when the event's success flag is true and to `failed`
otherwise, and the resolved target is the event-carried message id whenever
the event supplies one; only when the event omits its message id does the
resolution fall back to the currently-processing row. -/
theorem execution_complete_resolution (msgs : List MessageRow)
    (ev : ExecutionCompleteEvent) (now : Int) :
    (∀ mid, ev.messageId = some mid → resolveCompletionMessageId msgs ev = some mid) ∧
    (ev.messageId = none →
      resolveCompletionMessageId msgs ev = (findProcessing msgs).map fun m => m.id) ∧
    (∀ m ∈ msgs, some m.id = resolveCompletionMessageId msgs ev →
      { m with status := if ev.success then .completed else .failed,
               completedAt := some now } ∈ processExecutionComplete msgs ev now) := by
  refine ⟨fun mid h => ?_, fun h => ?_, fun m hm h => ?_⟩
  · unfold resolveCompletionMessageId
    rw [h]
    rfl
  · unfold resolveCompletionMessageId
    rw [h]
    cases hp : findProcessing msgs <;> simp [Option.orElse]
  · unfold processExecutionComplete
    rw [← h]
    have hmem := List.mem_map_of_mem
      (f := fun x =>
        if x.id = m.id then
          { x with status := if ev.success then MessageStatus.completed else .failed,
                   completedAt := some now }
        else x) hm
    simpa using hmem

/-- Witness for C5: a processing row `"a"` is in the table, but the event
carries message id `"b"`, and `"b"` is what gets resolved. -/
theorem execution_complete_resolution_witness :
    (ExecutionCompleteEvent.mk true (some "b")).messageId = some "b" ∧
    resolveCompletionMessageId
      [{ id := "a", status := .processing, createdAt := 0 }]
      { success := true, messageId := some "b" } = some "b" :=
  ⟨rfl,
    (execution_complete_resolution
      [{ id := "a", status := .processing, createdAt := 0 }]
      { success := true, messageId := some "b" } 5).1 "b" rfl⟩

end ClaimC5

section ClaimC6

/-- The fold in `selectOldestPending` returns (when it returns anything) an
element of the list or the initial accumulator, no later in creation time
than the accumulator and than every list element. -/
theorem foldl_oldest_spec (l : List MessageRow) (acc : Option MessageRow) (m : MessageRow)
    (h : l.foldl
      (fun acc m =>
        match acc with
        | none => some m
        | some b => if m.createdAt < b.createdAt then some m else acc) acc = some m) :
    (acc = some m ∨ m ∈ l) ∧
    (∀ b, acc = some b → m.createdAt ≤ b.createdAt) ∧
    (∀ x ∈ l, m.createdAt ≤ x.createdAt) := by
  induction l generalizing acc with
  | nil =>
    simp only [List.foldl_nil] at h
    exact ⟨Or.inl h, fun b hb => by rw [h] at hb; cases hb; exact le_refl _,
      fun x hx => absurd hx (List.not_mem_nil x)⟩
  | cons x xs ih =>
    simp only [List.foldl_cons] at h
    obtain ⟨h1, h2, h3⟩ := ih _ h
    have hstep : ∀ b, (match acc with
        | none => some x
        | some b => if x.createdAt < b.createdAt then some x else acc) = some b →
        m.createdAt ≤ b.createdAt := h2
    refine ⟨?_, ?_, ?_⟩
    · rcases h1 with h1 | h1
      · cases acc with
        | none =>
          simp only at h1
          cases h1
          exact Or.inr (List.mem_cons_self _ _)
        | some b =>
          simp only at h1
          by_cases hlt : x.createdAt < b.createdAt
          · rw [if_pos hlt] at h1
            cases h1
            exact Or.inr (List.mem_cons_self _ _)
          · rw [if_neg hlt] at h1
            exact Or.inl h1
      · exact Or.inr (List.mem_cons_of_mem _ h1)
    · intro b hb
      subst hb
      by_cases hlt : x.createdAt < b.createdAt
      · have := hstep x (by simp [hlt])
        omega
      · exact hstep b (by simp [hlt])
    · intro y hy
      rcases List.mem_cons.mp hy with hy | hy
      · subst hy
        cases acc with
        | none => exact hstep y rfl
        | some b =>
          by_cases hlt : y.createdAt < b.createdAt
          · exact hstep y (by simp [hlt])
          · have := hstep b (by simp [hlt])
            omega
      · exact h3 y hy

/-- The row selected by `SELECT * FROM messages WHERE status = 'pending'
ORDER BY created_at ASC LIMIT 1` is a pending row with minimal
`created_at`. -/
theorem selectOldestPending_spec (msgs : List MessageRow) (m : MessageRow)
    (h : selectOldestPending msgs = some m) :
    m ∈ msgs ∧ m.status = .pending ∧
      ∀ x ∈ msgs, x.status = .pending → m.createdAt ≤ x.createdAt := by
  unfold selectOldestPending at h
  obtain ⟨h1, _, h3⟩ := foldl_oldest_spec _ none m h
  rcases h1 with h1 | h1
  · exact absurd h1 (by simp)
  · have hmem := List.mem_filter.mp h1
    refine ⟨hmem.1, by simpa using hmem.2, fun x hx hp => ?_⟩
    exact h3 x (List.mem_filter.mpr ⟨hx, by simpa using hp⟩)

/-- Counterexample to C6 as stated: two pending messages tie on
`created_at = 5`; the message with id `"b"` was inserted first (earlier in
table order) and the id-wise smaller `"a"` second.  The claim's tie-break
("creation timestamp then id") demands `"a"`, but the query orders by
`created_at` only and the driver dispatches `"b"`. -/
theorem queue_tiebreak_counterexample :
    (processMessageQueue
      { messages := [{ id := "b", status := .pending, createdAt := 5 },
                     { id := "a", status := .pending, createdAt := 5 }],
        sandboxConnected := true } 10).2 = .dispatched "b" ∧
    QueueOutcome.dispatched "b" ≠ .dispatched "a" := by
  refine ⟨rfl, fun h => ?_⟩
  have : "b" = "a" := by injection h
  simp at this

/-- C6 (amended): one run of the queue driver: (1) if some message is
`processing`, it returns with no state change; (2) otherwise it selects a
pending message with minimal creation timestamp — ties on the timestamp are
broken by table (insertion) order, not by message id; (3) if no sandbox
socket is open it initiates a spawn and returns with the table unchanged
(the selected message stays `pending`); (4) only with a sandbox socket open
does it mark exactly the selected message `processing` (stamping
`started_at`) and dispatch the prompt command for it. -/
theorem queue_driver_correct (st : QueueState) (now : Int) :
    ((∃ m ∈ st.messages, m.status = .processing) →
      processMessageQueue st now = (st, .alreadyProcessing)) ∧
    ((¬ ∃ m ∈ st.messages, m.status = .processing) →
      ∀ m, selectOldestPending st.messages = some m →
        (m ∈ st.messages ∧ m.status = .pending ∧
          ∀ x ∈ st.messages, x.status = .pending → m.createdAt ≤ x.createdAt) ∧
        (st.sandboxConnected = false →
          processMessageQueue st now = (st, .spawnRequested m.id)) ∧
        (st.sandboxConnected = true →
          processMessageQueue st now =
            ({ st with
                messages := st.messages.map fun x =>
                  if x.id = m.id then { x with status := .processing, startedAt := some now }
                  else x },
              .dispatched m.id))) := by
  constructor
  · rintro ⟨m, hm, hp⟩
    have hs : (findProcessing st.messages).isSome := by
      simp only [findProcessing, List.find?_isSome]
      exact ⟨m, hm, by simp [hp]⟩
    simp [processMessageQueue, hs]
  · intro hnone m hsel
    have hs : findProcessing st.messages = none := by
      simp only [findProcessing, List.find?_eq_none]
      intro x hx
      simp only [decide_eq_true_eq]
      exact fun hp => hnone ⟨x, hx, hp⟩
    refine ⟨selectOldestPending_spec st.messages m hsel, fun hconn => ?_, fun hconn => ?_⟩
    · simp [processMessageQueue, hs, hsel, hconn]
    · simp [processMessageQueue, hs, hsel, hconn]

/-- Witness for C6: in a table with one processing row the driver is a
no-op, and in a table with a single pending row and a connected sandbox the
pending row is selected, marked processing and dispatched. -/
theorem queue_driver_correct_witness :
    processMessageQueue
      { messages := [{ id := "p", status := .processing, createdAt := 0 }],
        sandboxConnected := true } 9 =
      ({ messages := [{ id := "p", status := .processing, createdAt := 0 }],
         sandboxConnected := true }, .alreadyProcessing) ∧
    processMessageQueue
      { messages := [{ id := "q", status := .pending, createdAt := 3 }],
        sandboxConnected := true } 9 =
      ({ messages := [{ id := "q", status := .processing, createdAt := 3,
                        startedAt := some 9 }],
         sandboxConnected := true }, .dispatched "q") := by
  constructor
  · exact (queue_driver_correct
      { messages := [{ id := "p", status := .processing, createdAt := 0 }],
        sandboxConnected := true } 9).1
      ⟨{ id := "p", status := .processing, createdAt := 0 }, by simp, rfl⟩
  · have h := ((queue_driver_correct
      { messages := [{ id := "q", status := .pending, createdAt := 3 }],
        sandboxConnected := true } 9).2
      (by rintro ⟨m, hm, hp⟩; simp at hm; subst hm; simp at hp)
      { id := "q", status := .pending, createdAt := 3 } rfl).2.2 rfl
    simpa using h

end ClaimC6

section ClaimC3

/-- Counterexample to C3 as stated: a TRANSIENT provider error during
`SessionDO.spawnSandbox` (one of the claim's two cited spawn paths) still
increments the spawn-failure counter — that catch block increments
unconditionally, with no transient/permanent classification — whereas the
claim requires a transient error to leave the counter unchanged (it starts
at 0 and ends at 1). -/
theorem transient_spawn_error_counterexample :
    (sessionDOSpawnCatch (.providerError .transient "Modal 503")
      { spawnFailureCount := 0, lastSpawnFailure := 0, status := .spawning }
      1000).1.spawnFailureCount = 1 ∧
    (1 : Int) ≠ 0 := by
  exact ⟨rfl, by decide⟩

/-- C3 (amended): in `SandboxLifecycleManager.doSpawn` the spawn-failure
counter is incremented and `last_spawn_failure` stamped if and only if the
caught error is a permanent provider error or a non-provider (unknown)
error, and a transient provider error leaves both untouched; in
`SessionDO.spawnSandbox` EVERY caught error increments the counter and
stamps `last_spawn_failure`, with no classification.  In both paths the
sandbox status is set to `failed` and a `sandbox_error` carrying the error
message is broadcast. -/
theorem spawn_failure_handling (err : SpawnError) (st : SpawnFailureState) (now : Int) :
    ((doSpawnCatch err st now).1.spawnFailureCount =
      if incrementsCircuitBreaker err then st.spawnFailureCount + 1
      else st.spawnFailureCount) ∧
    ((doSpawnCatch err st now).1.lastSpawnFailure =
      if incrementsCircuitBreaker err then now else st.lastSpawnFailure) ∧
    (doSpawnCatch err st now).1.status = .failed ∧
    (doSpawnCatch err st now).2 = [.sandboxError err.message] ∧
    (sessionDOSpawnCatch err st now).1.spawnFailureCount = st.spawnFailureCount + 1 ∧
    (sessionDOSpawnCatch err st now).1.lastSpawnFailure = now ∧
    (sessionDOSpawnCatch err st now).1.status = .failed ∧
    (sessionDOSpawnCatch err st now).2 = [.sandboxError err.message] := by
  rcases err with ⟨et, msg⟩ | msg
  · cases et <;> simp [doSpawnCatch, sessionDOSpawnCatch, incrementsCircuitBreaker]
  · simp [doSpawnCatch, sessionDOSpawnCatch, incrementsCircuitBreaker]

end ClaimC3

section ClaimC7

/-- C7: (1) if the sandbox status is terminal ({stopped, stale, failed})
when `triggerSnapshot` starts, it is still in that set when the call
returns — the operation never moves a terminal sandbox to `snapshotting` or
any other non-terminal status; (2) for a non-terminal starting status, when
the snapshot call actually runs (provider supports snapshots, a provider
object id and session exist, status is not already `snapshotting`) and the
reason is not `heartbeat_timeout`, the status is set to `snapshotting`
during the call (first broadcast) and restored to the previous status
afterwards (final state and last broadcast). -/
theorem snapshot_terminal_stickiness (ctx : SnapshotCtx) (st : SnapState) (reason : String) :
    ((st.status = .stopped ∨ st.status = .stale ∨ st.status = .failed) →
      ((triggerSnapshot ctx st reason).1.status = .stopped ∨
       (triggerSnapshot ctx st reason).1.status = .stale ∨
       (triggerSnapshot ctx st reason).1.status = .failed)) ∧
    (¬ (st.status = .stopped ∨ st.status = .stale ∨ st.status = .failed) →
      ctx.providerSupportsSnapshot = true →
      strTruthy st.modalObjectId = true →
      st.sessionExists = true →
      st.status ≠ .snapshotting →
      reason ≠ "heartbeat_timeout" →
      (triggerSnapshot ctx st reason).1.status = st.status ∧
      ∃ mid, (triggerSnapshot ctx st reason).2 =
        .sandboxStatus .snapshotting :: mid ++ [.sandboxStatus st.status]) := by
  constructor
  · intro hterm
    obtain ⟨status, mo, se, sn⟩ := st
    simp only at hterm
    unfold triggerSnapshot
    rcases hterm with h | h | h <;> subst h <;>
      cases hcall : ctx.callResult <;>
        · simp only [hcall]
          split_ifs <;> simp_all
  · intro hterm hsup hobj hsess hsnap hreason
    obtain ⟨status, mo, se, sn⟩ := st
    simp only at hterm hsup hobj hsess hsnap
    cases hcall : ctx.callResult with
    | error e =>
      refine ⟨?_, ⟨[], ?_⟩⟩ <;>
        simp [triggerSnapshot, hcall, hsup, hobj, hsess, hsnap, hterm, hreason]
    | ok result =>
      by_cases hr : result.success = true ∧ strTruthy result.imageId = true
      · refine ⟨?_, ⟨[.snapshotSaved (result.imageId.getD "") reason], ?_⟩⟩ <;>
          simp [triggerSnapshot, hcall, hsup, hobj, hsess, hsnap, hterm, hreason, hr]
      · refine ⟨?_, ⟨[], ?_⟩⟩ <;>
          simp [triggerSnapshot, hcall, hsup, hobj, hsess, hsnap, hterm, hreason, hr]

/-- Witness for C7: a terminal (`stopped`) sandbox stays terminal through a
successful snapshot, and a `ready` sandbox with a provider object id is
taken through `snapshotting` and restored to `ready` on an
`execution_complete` snapshot. -/
theorem snapshot_terminal_stickiness_witness :
    ((triggerSnapshot ⟨true, .ok ⟨true, some "img-1", none⟩⟩
        ⟨.stopped, some "obj", true, none⟩ "inactivity_timeout").1.status = .stopped ∨
     (triggerSnapshot ⟨true, .ok ⟨true, some "img-1", none⟩⟩
        ⟨.stopped, some "obj", true, none⟩ "inactivity_timeout").1.status = .stale ∨
     (triggerSnapshot ⟨true, .ok ⟨true, some "img-1", none⟩⟩
        ⟨.stopped, some "obj", true, none⟩ "inactivity_timeout").1.status = .failed) ∧
    ((triggerSnapshot ⟨true, .ok ⟨true, some "img-1", none⟩⟩
        ⟨.ready, some "obj", true, none⟩ "execution_complete").1.status = .ready ∧
     ∃ mid, (triggerSnapshot ⟨true, .ok ⟨true, some "img-1", none⟩⟩
        ⟨.ready, some "obj", true, none⟩ "execution_complete").2 =
          .sandboxStatus .snapshotting :: mid ++ [.sandboxStatus .ready]) := by
  constructor
  · exact (snapshot_terminal_stickiness ⟨true, .ok ⟨true, some "img-1", none⟩⟩
      ⟨.stopped, some "obj", true, none⟩ "inactivity_timeout").1 (by simp)
  · exact (snapshot_terminal_stickiness ⟨true, .ok ⟨true, some "img-1", none⟩⟩
      ⟨.ready, some "obj", true, none⟩ "execution_complete").2
      (by simp) rfl (by decide) rfl (by decide) (by decide)

end ClaimC7

section ClaimC9

/-- Counterexample to C9 as stated: a request whose bearer token does NOT
match the stored `auth_token` but whose stored sandbox status is `stopped`
is rejected with 410, not with the 401 the claim's auth rule demands — the
terminal-status check runs before the token check. -/
theorem upgrade_terminal_before_auth_counterexample :
    handleSandboxUpgrade (some ⟨some "tok", some "sb-1", .stopped⟩)
      (some "Bearer wrong") (some "sb-1") false = .rejected 410 ∧
    (410 : Nat) ≠ 401 := by
  exact ⟨rfl, by decide⟩

/-- C9 (amended): the sandbox-upgrade checks run in this order:
(1) whenever the stored sandbox status is `stopped` or `stale` the upgrade
is rejected with 410, regardless of the headers; (2) otherwise a request
whose bearer `Authorization` header does not match the stored
`sandbox.auth_token` is rejected with 401; (3) otherwise a request whose
declared `X-Sandbox-ID` differs from a stored non-empty expected
`modal_sandbox_id` is rejected with 403; (4) only a request passing all
checks is accepted, upon which any previously tracked sandbox socket is
closed and the sandbox status moves to `ready`. -/
theorem sandbox_upgrade_checks (sandbox : Option SandboxAuthRow)
    (authHeader declaredId : Option String) (hasWs : Bool) :
    (∀ row, sandbox = some row → (row.status = .stopped ∨ row.status = .stale) →
      handleSandboxUpgrade sandbox authHeader declaredId hasWs = .rejected 410) ∧
    (¬ ((sandbox.map fun s => s.status) = some .stopped ∨
        (sandbox.map fun s => s.status) = some .stale) →
      authHeader ≠ some ("Bearer " ++ optToJsString (sandbox.bind fun s => s.authToken)) →
      handleSandboxUpgrade sandbox authHeader declaredId hasWs = .rejected 401) ∧
    (¬ ((sandbox.map fun s => s.status) = some .stopped ∨
        (sandbox.map fun s => s.status) = some .stale) →
      authHeader = some ("Bearer " ++ optToJsString (sandbox.bind fun s => s.authToken)) →
      strTruthy (sandbox.bind fun s => s.modalSandboxId) = true →
      declaredId ≠ some ((sandbox.bind fun s => s.modalSandboxId).getD "") →
      handleSandboxUpgrade sandbox authHeader declaredId hasWs = .rejected 403) ∧
    (¬ ((sandbox.map fun s => s.status) = some .stopped ∨
        (sandbox.map fun s => s.status) = some .stale) →
      authHeader = some ("Bearer " ++ optToJsString (sandbox.bind fun s => s.authToken)) →
      (strTruthy (sandbox.bind fun s => s.modalSandboxId) = false ∨
        declaredId = some ((sandbox.bind fun s => s.modalSandboxId).getD "")) →
      handleSandboxUpgrade sandbox authHeader declaredId hasWs = .accepted hasWs .ready) := by
  refine ⟨?_, ?_, ?_, ?_⟩
  · intro row hrow hterm
    subst hrow
    have hc : ((some row).map fun s => s.status) = some SandboxStatus.stopped ∨
        ((some row).map fun s => s.status) = some SandboxStatus.stale := by
      rcases hterm with h | h <;> simp [h]
    simp only [handleSandboxUpgrade]
    rw [if_pos hc]
  · intro hterm hauth
    simp only [handleSandboxUpgrade]
    rw [if_neg hterm, if_pos (Or.inr hauth)]
  · intro hterm hauth hid hne
    have h2 : ¬ (authHeader = none ∨
        authHeader ≠ some ("Bearer " ++ optToJsString (sandbox.bind fun s => s.authToken))) := by
      rintro (h | h)
      · rw [hauth] at h
        exact Option.noConfusion h
      · exact h hauth
    simp only [handleSandboxUpgrade]
    rw [if_neg hterm, if_neg h2, if_pos ⟨hid, hne⟩]
  · intro hterm hauth hpass
    have h2 : ¬ (authHeader = none ∨
        authHeader ≠ some ("Bearer " ++ optToJsString (sandbox.bind fun s => s.authToken))) := by
      rintro (h | h)
      · rw [hauth] at h
        exact Option.noConfusion h
      · exact h hauth
    have h3 : ¬ (strTruthy (sandbox.bind fun s => s.modalSandboxId) = true ∧
        declaredId ≠ some ((sandbox.bind fun s => s.modalSandboxId).getD "")) := by
      rintro ⟨ha, hb⟩
      rcases hpass with h | h
      · exact absurd ha (by simp [h])
      · exact hb h
    simp only [handleSandboxUpgrade]
    rw [if_neg hterm, if_neg h2, if_neg h3]

/-- Witness for C9: a request with the matching bearer token and matching
declared sandbox id against a `connecting` sandbox with a previously tracked
socket is accepted, the previous socket is closed, and the status moves to
`ready`. -/
theorem sandbox_upgrade_checks_witness :
    handleSandboxUpgrade (some ⟨some "tok", some "sb-1", .connecting⟩)
      (some "Bearer tok") (some "sb-1") true = .accepted true .ready :=
  ((sandbox_upgrade_checks (some ⟨some "tok", some "sb-1", .connecting⟩)
      (some "Bearer tok") (some "sb-1") true).2.2.2
    (by decide) rfl (Or.inr rfl))

end ClaimC9

section ClaimC10

/-- C10: `setSecrets` is atomic with respect to validation failures — every
key/value validation and the key-count quota check run before any database
statement, so whenever the call returns a `RepoSecretsValidationError` the
stored `repo_secrets` table (for every repository) is exactly what it was
before the call. -/
theorem setSecrets_atomic_on_validation_error (db : SecretsDB) (repoId : Int)
    (repoOwner repoName : String) (secrets : List (String × String)) (now : Int) (e : String)
    (h : (setSecrets db repoId repoOwner repoName secrets now).2 = .error e) :
    (setSecrets db repoId repoOwner repoName secrets now).1 = db := by
  unfold setSecrets at h ⊢
  cases hv : validateAndNormalize secrets with
  | error e2 => simp [hv]
  | ok p =>
    obtain ⟨normalized, total⟩ := p
    simp only [hv] at h ⊢
    split_ifs at h ⊢ <;> simp_all

/-- Witness for C10: setting the reserved key `PATH` fails validation and
leaves an empty store empty. -/
theorem setSecrets_atomic_witness :
    (setSecrets [] 1 "Owner" "Repo" [("PATH", "x")] 0).2 =
      .error "Key \x27PATH\x27 is reserved" ∧
    (setSecrets [] 1 "Owner" "Repo" [("PATH", "x")] 0).1 = [] := by
  have h : (setSecrets [] 1 "Owner" "Repo" [("PATH", "x")] 0).2 =
      .error "Key \x27PATH\x27 is reserved" := by rfl
  exact ⟨h,
    setSecrets_atomic_on_validation_error [] 1 "Owner" "Repo" [("PATH", "x")] 0
      "Key \x27PATH\x27 is reserved" h⟩

end ClaimC10

section ClaimC8

theorem utf8Len_replicate (n : Nat) :
    utf8Len (String.mk (List.replicate n 'a')) = n := by
  have h1 : Char.utf8Size 'a' = 1 := rfl
  simp [utf8Len, List.map_replicate, h1, List.sum_const_nat]

theorem exc_bind_ok {α β : Type} (a : α) (f : α → Except String β) :
    (Except.ok a >>= f) = f a := rfl

theorem exc_bind_err {α β : Type} (e : String) (f : α → Except String β) :
    ((Except.error e : Except String α) >>= f) = Except.error e := rfl

theorem recordSet_mem (m : List (String × String)) (k v : String) (p : String × String)
    (h : p ∈ recordSet m k v) : p ∈ m ∨ p = (k, v) := by
  unfold recordSet at h
  split_ifs at h with hc
  · obtain ⟨p0, hp0, heq⟩ := List.mem_map.mp h
    by_cases hk : p0.1 = k
    · rw [if_pos hk] at heq
      exact Or.inr heq.symm
    · rw [if_neg hk] at heq
      subst heq
      exact Or.inl hp0
  · rcases List.mem_append.mp h with h | h
    · exact Or.inl h
    · simp at h
      subst h
      exact Or.inr rfl

theorem validateValue_ok (v : String) (h : validateValue v = .ok ()) :
    utf8Len v ≤ MAX_VALUE_SIZE := by
  unfold validateValue at h
  split_ifs at h with hgt
  omega

theorem validateAndNormalize_values (secrets : List (String × String))
    (acc : List (String × String) × Nat) (normalized : List (String × String)) (total : Nat)
    (hacc : ∀ p ∈ acc.1, utf8Len p.2 ≤ MAX_VALUE_SIZE)
    (h : secrets.foldlM
      (fun acc p => do
        let key := normalizeKey p.1
        validateKey key
        validateValue p.2
        pure (recordSet acc.1 key p.2, acc.2 + utf8Len p.2))
      acc = .ok (normalized, total)) :
    ∀ p ∈ normalized, utf8Len p.2 ≤ MAX_VALUE_SIZE := by
  induction secrets generalizing acc with
  | nil =>
    simp only [List.foldlM_nil] at h
    cases h
    exact hacc
  | cons q qs ih =>
    simp only [List.foldlM_cons] at h
    cases hk : validateKey (normalizeKey q.1) with
    | error e =>
      rw [hk] at h
      simp [exc_bind_err] at h
    | ok u =>
      cases u
      rw [hk] at h
      cases hv : validateValue q.2 with
      | error e =>
        rw [hv] at h
        simp [exc_bind_ok, exc_bind_err] at h
      | ok u2 =>
        cases u2
        rw [hv] at h
        simp only [exc_bind_ok] at h
        refine ih _ ?_ h
        intro p hp
        rcases recordSet_mem _ _ _ _ hp with hp | hp
        · exact hacc p hp
        · rw [hp]
          exact validateValue_ok _ hv

theorem validateAndNormalize_total (secrets : List (String × String))
    (acc : List (String × String) × Nat) (normalized : List (String × String)) (total : Nat)
    (h : secrets.foldlM
      (fun acc p => do
        let key := normalizeKey p.1
        validateKey key
        validateValue p.2
        pure (recordSet acc.1 key p.2, acc.2 + utf8Len p.2))
      acc = .ok (normalized, total)) :
    total = acc.2 + (secrets.map fun p => utf8Len p.2).sum := by
  induction secrets generalizing acc with
  | nil =>
    simp only [List.foldlM_nil] at h
    cases h
    simp
  | cons q qs ih =>
    simp only [List.foldlM_cons] at h
    cases hk : validateKey (normalizeKey q.1) with
    | error e =>
      rw [hk] at h
      simp [exc_bind_err] at h
    | ok u =>
      cases u
      rw [hk] at h
      cases hv : validateValue q.2 with
      | error e =>
        rw [hv] at h
        simp [exc_bind_ok, exc_bind_err] at h
      | ok u2 =>
        cases u2
        rw [hv] at h
        simp only [exc_bind_ok] at h
        have := ih _ h
        simp only [List.map_cons, List.sum_cons] at *
        omega

theorem dbUpsert_mem (db : SecretsDB) (row r : SecretRow) (h : r ∈ dbUpsert db row) :
    r ∈ db ∨ (r.repoId = row.repoId ∧ r.key = row.key ∧ r.value = row.value) := by
  unfold dbUpsert at h
  split_ifs at h with hc
  · obtain ⟨r0, hr0, heq⟩ := List.mem_map.mp h
    by_cases hcond : r0.repoId = row.repoId ∧ r0.key = row.key
    · rw [if_pos hcond] at heq
      right
      rw [← heq]
      exact ⟨rfl, rfl, rfl⟩
    · rw [if_neg hcond] at heq
      subst heq
      exact Or.inl hr0
  · rcases List.mem_append.mp h with h | h
    · exact Or.inl h
    · simp at h
      subst h
      right
      exact ⟨rfl, rfl, rfl⟩

theorem setSecrets_fold_mem (normalized : List (String × String)) (db : SecretsDB)
    (repoId : Int) (owner name : String) (now : Int) (r : SecretRow)
    (h : r ∈ normalized.foldl
      (fun d p => dbUpsert d
        { repoId := repoId, repoOwner := owner, repoName := name, key := p.1, value := p.2,
          createdAt := now, updatedAt := now })
      db) :
    r ∈ db ∨ ∃ p ∈ normalized, r.repoId = repoId ∧ r.key = p.1 ∧ r.value = p.2 := by
  induction normalized generalizing db with
  | nil => exact Or.inl h
  | cons q qs ih =>
    simp only [List.foldl_cons] at h
    rcases ih _ h with h1 | h1
    · rcases dbUpsert_mem _ _ _ h1 with h2 | h2
      · exact Or.inl h2
      · exact Or.inr ⟨q, List.mem_cons_self _ _, h2⟩
    · obtain ⟨p, hp, hfields⟩ := h1
      exact Or.inr ⟨p, List.mem_cons_of_mem _ hp, hfields⟩

theorem repoKeys_mem (db : SecretsDB) (rid : Int) (k : String) :
    k ∈ repoKeys db rid ↔ ∃ r ∈ db, r.repoId = rid ∧ r.key = k := by
  unfold repoKeys
  simp only [List.mem_map, List.mem_filter, decide_eq_true_eq]
  constructor
  · rintro ⟨r, ⟨hr, hrid⟩, hk⟩
    exact ⟨r, hr, hrid, hk⟩
  · rintro ⟨r, hr, hrid, hk⟩
    exact ⟨r, ⟨hr, hrid⟩, hk⟩

/-- C8 (amended): if the stored secrets satisfy the two per-store quotas —
at most 50 distinct keys per repo and every stored value at most 16384 UTF-8
bytes — then after any successful `setSecrets` call they still do, and the
sum of the UTF-8 byte lengths of the values sent in that single call is at
most 65536.  The 65536-byte bound is enforced per call, not against the
stored aggregate (see the counterexample). -/
theorem setSecrets_preserves_quotas (db : SecretsDB) (repoId : Int)
    (repoOwner repoName : String) (secrets : List (String × String)) (now : Int)
    (res : SetSecretsResult)
    (hinv : SecretsQuotaInv db)
    (h : (setSecrets db repoId repoOwner repoName secrets now).2 = .ok res) :
    SecretsQuotaInv (setSecrets db repoId repoOwner repoName secrets now).1 ∧
    (secrets.map fun p => utf8Len p.2).sum ≤ MAX_TOTAL_VALUE_SIZE := by
  unfold setSecrets at h ⊢
  cases hvn : validateAndNormalize secrets with
  | error e => simp [hvn] at h
  | ok pr =>
    obtain ⟨normalized, total⟩ := pr
    simp only [hvn] at h ⊢
    by_cases htot : total > MAX_TOTAL_VALUE_SIZE
    · rw [if_pos htot] at h
      exact absurd h (by simp)
    · rw [if_neg htot] at h ⊢
      by_cases hcnt : (repoKeys db repoId).dedup.length +
          (List.filter (fun k => !(repoKeys db repoId).dedup.contains k)
            (List.map (fun p => p.1) normalized)).length > MAX_SECRETS_PER_REPO
      · rw [if_pos hcnt] at h
        exact absurd h (by simp)
      · rw [if_neg hcnt] at h ⊢
        have hvals : ∀ p ∈ normalized, utf8Len p.2 ≤ MAX_VALUE_SIZE :=
          validateAndNormalize_values secrets ([], 0) normalized total (by simp) hvn
        have htotal : total = (secrets.map fun p => utf8Len p.2).sum := by
          have := validateAndNormalize_total secrets ([], 0) normalized total hvn
          simpa using this
        refine ⟨⟨?_, ?_⟩, by omega⟩
        · intro rid
          by_cases hrid : rid = repoId
          · subst hrid
            have hsub : (repoKeys (normalized.foldl
                (fun d p => dbUpsert d
                  { repoId := rid, repoOwner := jsToLowerCase repoOwner,
                    repoName := jsToLowerCase repoName, key := p.1, value := p.2,
                    createdAt := now, updatedAt := now })
                db) rid).toFinset ⊆
                (repoKeys db rid).toFinset ∪ (normalized.map fun p => p.1).toFinset := by
              intro k hk
              rw [List.mem_toFinset, repoKeys_mem] at hk
              obtain ⟨r, hr, hrid2, hkey⟩ := hk
              rcases setSecrets_fold_mem _ _ _ _ _ _ _ hr with hr2 | ⟨p, hp, _, hkeyp, _⟩
              · refine Finset.mem_union_left _ ?_
                rw [List.mem_toFinset, repoKeys_mem]
                exact ⟨r, hr2, hrid2, hkey⟩
              · refine Finset.mem_union_right _ ?_
                rw [List.mem_toFinset]
                rw [← hkey, hkeyp]
                exact List.mem_map_of_mem _ hp
            have hdiff : ((normalized.map fun p => p.1).toFinset \
                (repoKeys db rid).toFinset).card ≤
                ((normalized.map fun p => p.1).filter
                  (fun k => !(repoKeys db rid).dedup.contains k)).length := by
              refine le_trans (Finset.card_le_card ?_) (List.toFinset_card_le _)
              intro k hk
              rw [Finset.mem_sdiff, List.mem_toFinset, List.mem_toFinset] at hk
              rw [List.mem_toFinset, List.mem_filter]
              refine ⟨hk.1, ?_⟩
              have : ¬ k ∈ (repoKeys db rid).dedup := by
                rw [List.mem_dedup]
                exact fun hmem => hk.2 hmem
              simp [List.contains, List.elem_eq_mem, this]
            rw [← List.card_toFinset]
            calc (repoKeys (normalized.foldl
                  (fun d p => dbUpsert d
                    { repoId := rid, repoOwner := jsToLowerCase repoOwner,
                      repoName := jsToLowerCase repoName, key := p.1, value := p.2,
                      createdAt := now, updatedAt := now })
                  db) rid).toFinset.card
                ≤ ((repoKeys db rid).toFinset ∪ (normalized.map fun p => p.1).toFinset).card :=
                  Finset.card_le_card hsub
              _ = ((normalized.map fun p => p.1).toFinset \ (repoKeys db rid).toFinset).card +
                  (repoKeys db rid).toFinset.card := by
                  rw [Finset.union_comm]
                  exact (Finset.card_sdiff_add_card _ _).symm
              _ ≤ MAX_SECRETS_PER_REPO := by
                  rw [List.card_toFinset]
                  omega
          · have hsub : (repoKeys (normalized.foldl
                (fun d p => dbUpsert d
                  { repoId := repoId, repoOwner := jsToLowerCase repoOwner,
                    repoName := jsToLowerCase repoName, key := p.1, value := p.2,
                    createdAt := now, updatedAt := now })
                db) rid).toFinset ⊆ (repoKeys db rid).toFinset := by
              intro k hk
              rw [List.mem_toFinset, repoKeys_mem] at hk
              obtain ⟨r, hr, hrid2, hkey⟩ := hk
              rcases setSecrets_fold_mem _ _ _ _ _ _ _ hr with hr2 | ⟨p, hp, hrep, _, _⟩
              · rw [List.mem_toFinset, repoKeys_mem]
                exact ⟨r, hr2, hrid2, hkey⟩
              · exact absurd (hrid2 ▸ hrep) hrid
            rw [← List.card_toFinset]
            calc (repoKeys (normalized.foldl
                  (fun d p => dbUpsert d
                    { repoId := repoId, repoOwner := jsToLowerCase repoOwner,
                      repoName := jsToLowerCase repoName, key := p.1, value := p.2,
                      createdAt := now, updatedAt := now })
                  db) rid).toFinset.card
                ≤ (repoKeys db rid).toFinset.card := Finset.card_le_card hsub
              _ ≤ MAX_SECRETS_PER_REPO := by
                  rw [List.card_toFinset]
                  exact hinv.1 rid
        · intro r hr
          rcases setSecrets_fold_mem _ _ _ _ _ _ _ hr with hr2 | ⟨p, hp, _, _, hval⟩
          · exact hinv.2 r hr2
          · rw [hval]
            exact hvals p hp

theorem aggregate_quota_violation (v : String) (hv : utf8Len v = 16384) :
    setSecrets [] 1 "o" "r" [("K0", v)] 0 =
      ([{ repoId := 1, repoOwner := "o", repoName := "r", key := "K0", value := v, createdAt := 0, updatedAt := 0 }], .ok { created := 1, updated := 0, keys := ["K0"] }) ∧
    setSecrets [{ repoId := 1, repoOwner := "o", repoName := "r", key := "K0", value := v, createdAt := 0, updatedAt := 0 }] 1 "o" "r" [("K1", v)] 0 =
      ([{ repoId := 1, repoOwner := "o", repoName := "r", key := "K0", value := v, createdAt := 0, updatedAt := 0 }, { repoId := 1, repoOwner := "o", repoName := "r", key := "K1", value := v, createdAt := 0, updatedAt := 0 }], .ok { created := 1, updated := 0, keys := ["K1"] }) ∧
    setSecrets [{ repoId := 1, repoOwner := "o", repoName := "r", key := "K0", value := v, createdAt := 0, updatedAt := 0 }, { repoId := 1, repoOwner := "o", repoName := "r", key := "K1", value := v, createdAt := 0, updatedAt := 0 }] 1 "o" "r" [("K2", v)] 0 =
      ([{ repoId := 1, repoOwner := "o", repoName := "r", key := "K0", value := v, createdAt := 0, updatedAt := 0 }, { repoId := 1, repoOwner := "o", repoName := "r", key := "K1", value := v, createdAt := 0, updatedAt := 0 }, { repoId := 1, repoOwner := "o", repoName := "r", key := "K2", value := v, createdAt := 0, updatedAt := 0 }], .ok { created := 1, updated := 0, keys := ["K2"] }) ∧
    setSecrets [{ repoId := 1, repoOwner := "o", repoName := "r", key := "K0", value := v, createdAt := 0, updatedAt := 0 }, { repoId := 1, repoOwner := "o", repoName := "r", key := "K1", value := v, createdAt := 0, updatedAt := 0 }, { repoId := 1, repoOwner := "o", repoName := "r", key := "K2", value := v, createdAt := 0, updatedAt := 0 }] 1 "o" "r" [("K3", v)] 0 =
      ([{ repoId := 1, repoOwner := "o", repoName := "r", key := "K0", value := v, createdAt := 0, updatedAt := 0 }, { repoId := 1, repoOwner := "o", repoName := "r", key := "K1", value := v, createdAt := 0, updatedAt := 0 }, { repoId := 1, repoOwner := "o", repoName := "r", key := "K2", value := v, createdAt := 0, updatedAt := 0 }, { repoId := 1, repoOwner := "o", repoName := "r", key := "K3", value := v, createdAt := 0, updatedAt := 0 }], .ok { created := 1, updated := 0, keys := ["K3"] }) ∧
    setSecrets [{ repoId := 1, repoOwner := "o", repoName := "r", key := "K0", value := v, createdAt := 0, updatedAt := 0 }, { repoId := 1, repoOwner := "o", repoName := "r", key := "K1", value := v, createdAt := 0, updatedAt := 0 }, { repoId := 1, repoOwner := "o", repoName := "r", key := "K2", value := v, createdAt := 0, updatedAt := 0 }, { repoId := 1, repoOwner := "o", repoName := "r", key := "K3", value := v, createdAt := 0, updatedAt := 0 }] 1 "o" "r" [("K4", v)] 0 =
      ([{ repoId := 1, repoOwner := "o", repoName := "r", key := "K0", value := v, createdAt := 0, updatedAt := 0 }, { repoId := 1, repoOwner := "o", repoName := "r", key := "K1", value := v, createdAt := 0, updatedAt := 0 }, { repoId := 1, repoOwner := "o", repoName := "r", key := "K2", value := v, createdAt := 0, updatedAt := 0 }, { repoId := 1, repoOwner := "o", repoName := "r", key := "K3", value := v, createdAt := 0, updatedAt := 0 }, { repoId := 1, repoOwner := "o", repoName := "r", key := "K4", value := v, createdAt := 0, updatedAt := 0 }], .ok { created := 1, updated := 0, keys := ["K4"] }) ∧
    repoValueBytes [{ repoId := 1, repoOwner := "o", repoName := "r", key := "K0", value := v, createdAt := 0, updatedAt := 0 }, { repoId := 1, repoOwner := "o", repoName := "r", key := "K1", value := v, createdAt := 0, updatedAt := 0 }, { repoId := 1, repoOwner := "o", repoName := "r", key := "K2", value := v, createdAt := 0, updatedAt := 0 }, { repoId := 1, repoOwner := "o", repoName := "r", key := "K3", value := v, createdAt := 0, updatedAt := 0 }, { repoId := 1, repoOwner := "o", repoName := "r", key := "K4", value := v, createdAt := 0, updatedAt := 0 }] 1 = 81920 := by
  refine ⟨?_, ?_, ?_, ?_, ?_, ?_⟩ <;>
    simp +decide [setSecrets, validateAndNormalize, normalizeKey, jsToUpperCase, jsToLowerCase,
      validateKey, validateValue, recordSet, dbUpsert, repoKeys, matchesKeyPattern,
      isKeyStartChar, isKeyChar, RESERVED_KEYS, MAX_VALUE_SIZE, MAX_TOTAL_VALUE_SIZE,
      MAX_KEY_LENGTH, MAX_SECRETS_PER_REPO, hv, exc_bind_ok, exc_bind_err, repoValueBytes]

/-- Counterexample to C8 as stated: five successive `setSecrets` calls, each
storing one fresh key with a 16384-byte value, all succeed (each call is
within the per-value, per-call-total and key-count checks), yet after them
the sum of the UTF-8 byte lengths of the stored values for the repo is
81920 > 65536 — the aggregate quota is only enforced against the values of
a single call, never against the stored aggregate. -/
theorem secrets_aggregate_quota_counterexample :
    setSecrets [] 1 "o" "r" [("K0", String.mk (List.replicate 16384 'a'))] 0 =
      ([{ repoId := 1, repoOwner := "o", repoName := "r", key := "K0", value := String.mk (List.replicate 16384 'a'), createdAt := 0, updatedAt := 0 }], .ok { created := 1, updated := 0, keys := ["K0"] }) ∧
    setSecrets [{ repoId := 1, repoOwner := "o", repoName := "r", key := "K0", value := String.mk (List.replicate 16384 'a'), createdAt := 0, updatedAt := 0 }] 1 "o" "r" [("K1", String.mk (List.replicate 16384 'a'))] 0 =
      ([{ repoId := 1, repoOwner := "o", repoName := "r", key := "K0", value := String.mk (List.replicate 16384 'a'), createdAt := 0, updatedAt := 0 }, { repoId := 1, repoOwner := "o", repoName := "r", key := "K1", value := String.mk (List.replicate 16384 'a'), createdAt := 0, updatedAt := 0 }], .ok { created := 1, updated := 0, keys := ["K1"] }) ∧
    setSecrets [{ repoId := 1, repoOwner := "o", repoName := "r", key := "K0", value := String.mk (List.replicate 16384 'a'), createdAt := 0, updatedAt := 0 }, { repoId := 1, repoOwner := "o", repoName := "r", key := "K1", value := String.mk (List.replicate 16384 'a'), createdAt := 0, updatedAt := 0 }] 1 "o" "r" [("K2", String.mk (List.replicate 16384 'a'))] 0 =
      ([{ repoId := 1, repoOwner := "o", repoName := "r", key := "K0", value := String.mk (List.replicate 16384 'a'), createdAt := 0, updatedAt := 0 }, { repoId := 1, repoOwner := "o", repoName := "r", key := "K1", value := String.mk (List.replicate 16384 'a'), createdAt := 0, updatedAt := 0 }, { repoId := 1, repoOwner := "o", repoName := "r", key := "K2", value := String.mk (List.replicate 16384 'a'), createdAt := 0, updatedAt := 0 }], .ok { created := 1, updated := 0, keys := ["K2"] }) ∧
    setSecrets [{ repoId := 1, repoOwner := "o", repoName := "r", key := "K0", value := String.mk (List.replicate 16384 'a'), createdAt := 0, updatedAt := 0 }, { repoId := 1, repoOwner := "o", repoName := "r", key := "K1", value := String.mk (List.replicate 16384 'a'), createdAt := 0, updatedAt := 0 }, { repoId := 1, repoOwner := "o", repoName := "r", key := "K2", value := String.mk (List.replicate 16384 'a'), createdAt := 0, updatedAt := 0 }] 1 "o" "r" [("K3", String.mk (List.replicate 16384 'a'))] 0 =
      ([{ repoId := 1, repoOwner := "o", repoName := "r", key := "K0", value := String.mk (List.replicate 16384 'a'), createdAt := 0, updatedAt := 0 }, { repoId := 1, repoOwner := "o", repoName := "r", key := "K1", value := String.mk (List.replicate 16384 'a'), createdAt := 0, updatedAt := 0 }, { repoId := 1, repoOwner := "o", repoName := "r", key := "K2", value := String.mk (List.replicate 16384 'a'), createdAt := 0, updatedAt := 0 }, { repoId := 1, repoOwner := "o", repoName := "r", key := "K3", value := String.mk (List.replicate 16384 'a'), createdAt := 0, updatedAt := 0 }], .ok { created := 1, updated := 0, keys := ["K3"] }) ∧
    setSecrets [{ repoId := 1, repoOwner := "o", repoName := "r", key := "K0", value := String.mk (List.replicate 16384 'a'), createdAt := 0, updatedAt := 0 }, { repoId := 1, repoOwner := "o", repoName := "r", key := "K1", value := String.mk (List.replicate 16384 'a'), createdAt := 0, updatedAt := 0 }, { repoId := 1, repoOwner := "o", repoName := "r", key := "K2", value := String.mk (List.replicate 16384 'a'), createdAt := 0, updatedAt := 0 }, { repoId := 1, repoOwner := "o", repoName := "r", key := "K3", value := String.mk (List.replicate 16384 'a'), createdAt := 0, updatedAt := 0 }] 1 "o" "r" [("K4", String.mk (List.replicate 16384 'a'))] 0 =
      ([{ repoId := 1, repoOwner := "o", repoName := "r", key := "K0", value := String.mk (List.replicate 16384 'a'), createdAt := 0, updatedAt := 0 }, { repoId := 1, repoOwner := "o", repoName := "r", key := "K1", value := String.mk (List.replicate 16384 'a'), createdAt := 0, updatedAt := 0 }, { repoId := 1, repoOwner := "o", repoName := "r", key := "K2", value := String.mk (List.replicate 16384 'a'), createdAt := 0, updatedAt := 0 }, { repoId := 1, repoOwner := "o", repoName := "r", key := "K3", value := String.mk (List.replicate 16384 'a'), createdAt := 0, updatedAt := 0 }, { repoId := 1, repoOwner := "o", repoName := "r", key := "K4", value := String.mk (List.replicate 16384 'a'), createdAt := 0, updatedAt := 0 }], .ok { created := 1, updated := 0, keys := ["K4"] }) ∧
    repoValueBytes [{ repoId := 1, repoOwner := "o", repoName := "r", key := "K0", value := String.mk (List.replicate 16384 'a'), createdAt := 0, updatedAt := 0 }, { repoId := 1, repoOwner := "o", repoName := "r", key := "K1", value := String.mk (List.replicate 16384 'a'), createdAt := 0, updatedAt := 0 }, { repoId := 1, repoOwner := "o", repoName := "r", key := "K2", value := String.mk (List.replicate 16384 'a'), createdAt := 0, updatedAt := 0 }, { repoId := 1, repoOwner := "o", repoName := "r", key := "K3", value := String.mk (List.replicate 16384 'a'), createdAt := 0, updatedAt := 0 }, { repoId := 1, repoOwner := "o", repoName := "r", key := "K4", value := String.mk (List.replicate 16384 'a'), createdAt := 0, updatedAt := 0 }] 1 = 81920 ∧
    ¬ (81920 ≤ MAX_TOTAL_VALUE_SIZE) := by
  have h := aggregate_quota_violation (String.mk (List.replicate 16384 'a')) (utf8Len_replicate 16384)
  exact ⟨h.1, h.2.1, h.2.2.1, h.2.2.2.1, h.2.2.2.2.1, h.2.2.2.2.2, by decide⟩

/-- Witness for C8 (amended): one small successful call on the empty store
preserves the invariant. -/
theorem setSecrets_preserves_quotas_witness :
    SecretsQuotaInv (setSecrets [] 1 "o" "r" [("FOO", "bar")] 0).1 ∧
    ([("FOO", "bar")].map fun p => utf8Len p.2).sum ≤ MAX_TOTAL_VALUE_SIZE :=
  setSecrets_preserves_quotas [] 1 "o" "r" [("FOO", "bar")] 0
    { created := 1, updated := 0, keys := ["FOO"] }
    ⟨fun rid => by simp [repoKeys, MAX_SECRETS_PER_REPO],
     fun r hr => absurd hr (List.not_mem_nil r)⟩
    rfl

end ClaimC8
